import Mathlib

/-!
Shallow embedding of the Ninedraft sandbox game core (src/a3_files/app.py).

Conventions:
* Python floats are modelled as `ℚ` (every constant involved — 0.5, 2.5,
  100, 200, 2, 1.5 — is exact), Python ints as `ℤ` or `ℕ`.
* Stateful methods become pure functions from the old record to the new one.
* Randomness (`random.random()`, `random.uniform`, `random.randint`,
  `cmath.rect` of a random angle) is passed in as explicit arguments.
* Modules imported by app.py but absent from the repository snapshot
  (player.py, grid.py, world.py, mob.py) are modelled from the spec where a
  claim needs them; each such definition carries a doc comment starting
  `Modelled from the spec:`.
-/

set_option autoImplicit false

namespace Ninedraft

/-- `BLOCK_SIZE = 2 ** 5` (app.py line 32). -/
def BLOCK_SIZE : ℚ := 2 ^ 5

/-- `SHEEP_GRAVITY_FACTOR = 100` (app.py line 44). -/
def SHEEP_GRAVITY_FACTOR : ℚ := 100

/-- `BEE_GRAVITY_FACTOR = 200` (app.py line 82). -/
def BEE_GRAVITY_FACTOR : ℚ := 200

/-- `ToolItem` (app.py lines 355–430): an item with a tool type and a
durability counter.  Durability is a Python int in every constructor call
(`132`, `1562`, `60`), modelled as `ℤ` so that the unguarded decrement in
`attack` is represented faithfully. -/
structure ToolItem where
  id_ : String
  tool_type : String
  durability : ℤ
  max_durability : ℤ
deriving DecidableEq, Repr

/-- `ToolItem.can_attack` (app.py lines 394–402): Python returns `True` when
`self._durability > 0` and falls through to `None` (falsy) otherwise; both
outcomes are consumed as booleans, so the embedding returns `Bool`. -/
def ToolItem.can_attack (t : ToolItem) : Bool :=
  decide (0 < t.durability)

/-- `ToolItem.attack` (app.py lines 404–414): `if not successful:
self._durability -= 1`.  There is no clamping in the source. -/
def ToolItem.attack (t : ToolItem) (successful : Bool) : ToolItem :=
  if successful then t else { t with durability := t.durability - 1 }

theorem attack_durability_foldl (t : ToolItem) (bs : List Bool) :
    (bs.foldl ToolItem.attack t).durability = t.durability - (bs.count false : ℤ) := by
  induction bs generalizing t with
  | nil => simp
  | cons b bs ih =>
    cases b <;>
      simp [List.foldl_cons, ih, ToolItem.attack, List.count_cons] <;> ring

/-- Modelled from the spec: `player.py` is not in the repository snapshot
(only app.py is).  Spec §3: "Player: a physical body with health, food (both
bounded, ...)".  The player carries the four numeric stats app.py reads
(`get_food`, `get_health`, `_max_food`) and mutates through `change_food` /
`change_health`. -/
structure Player where
  health : ℚ
  food : ℚ
  max_health : ℚ
  max_food : ℚ
deriving DecidableEq, Repr

/-- Modelled from the spec: `Player.change_food` lives in the missing
player.py.  Spec §3 says both stats are bounded, so the delta is added and
the result clamped into `[0, max_food]`. -/
def Player.change_food (p : Player) (delta : ℚ) : Player :=
  { p with food := min p.max_food (max 0 (p.food + delta)) }

/-- Modelled from the spec: `Player.change_health` lives in the missing
player.py.  Spec §3 says both stats are bounded, so the delta is added and
the result clamped into `[0, max_health]`. -/
def Player.change_health (p : Player) (delta : ℚ) : Player :=
  { p with health := min p.max_health (max 0 (p.health + delta)) }

/-- The `"food"`/`"health"` branch of `Ninedraft.run_effect` together with
its `KeyError` fallback (app.py lines 1238–1251): for a recognised stat
kind the code ignores the tag and re-derives the stat to change from the
player's own food level (`if self._player.get_food() < self._player._max_food`),
then calls `change_food`/`change_health` with the effect's strength.  The
`"crafting"` branch (lines 1226–1236) only opens a crafting window and
never touches player stats, so it is outside this embedding. -/
def run_effect_stat (p : Player) (kind : String) (strength : ℚ) :
    Except String Player :=
  if kind = "food" ∨ kind = "health" then
    Except.ok (if p.food < p.max_food then p.change_food strength
               else p.change_health strength)
  else
    Except.error ("No effect defined for " ++ kind)

/-- The stat cost applied by `Ninedraft.mine_block` once the block is mined
(app.py lines 1001–1007): `if self._player.get_food() > 0:
self._player.change_food(-0.5) else: self._player.change_health(-2.5)`. -/
def mine_stat_update (p : Player) : Player :=
  if 0 < p.food then p.change_food (-(1 / 2)) else p.change_health (-(5 / 2))

/-- The luck guard of `Ninedraft.mine_block` (app.py lines 1011–1013):
`luck = random.random()` is a uniform `[0, 1)` sample and the local `drops`
is only assigned under `if luck < 1:`.  `none` models the Python case in
which the guard fails and `drops` stays unassigned; `get_drops` abstracts
`block.get_drops(luck, was_item_suitable)`. -/
def mine_drops {α : Type} (luck : ℚ) (get_drops : ℚ → Bool → α)
    (was_item_suitable : Bool) : Option α :=
  if luck < 1 then some (get_drops luck was_item_suitable) else none

/-- A world mutation performed by the drop loop of `Ninedraft.mine_block`:
`self._world.add_item(physical, x, y)` or
`self._world.add_block(create_block(*drop_types), x, y)` (world.py is not in
the snapshot; the loop is embedded as the list of calls it makes, with the
pixel coordinates it passes).  `α` is the payload type of `drop_types`. -/
inductive WorldEvent (α : Type) where
  | addItem (drop_types : α) (x y : ℚ)
  | addBlock (drop_types : α) (x y : ℚ)
deriving DecidableEq, Repr

/-- The x coordinate computed for the `i`-th drop when its category is
`"item"` (app.py line 1029): `x0 - BLOCK_SIZE // 2 + 5 + (i % 3) * 11 +
random.randint(0, 2)`; the randint sample is the input `jx i`. -/
def item_drop_x (x0 : ℚ) (jx : ℕ → ℤ) (i : ℕ) : ℚ :=
  x0 - BLOCK_SIZE / 2 + 5 + (i % 3 : ℕ) * 11 + (jx i : ℚ)

/-- The y coordinate computed for the `i`-th drop when its category is
`"item"` (app.py line 1030): `y0 - BLOCK_SIZE // 2 + 5 + ((i // 3) % 3) * 11
+ random.randint(0, 2)`; the randint sample is the input `jy i`. -/
def item_drop_y (y0 : ℚ) (jy : ℕ → ℤ) (i : ℕ) : ℚ :=
  y0 - BLOCK_SIZE / 2 + 5 + (i / 3 % 3 : ℕ) * 11 + (jy i : ℚ)

/-- The drop loop of `Ninedraft.mine_block` (app.py lines 1020–1036).
State: `i` is the `enumerate` index and `xy` the current value of the local
variables `(x, y)` — initially the cursor coordinates passed to
`mine_block`, and *reassigned* by every `"item"` iteration (lines
1029–1030).  An `"item"` entry adds one dropped item at the freshly
jittered coordinates; a `"block"` entry adds one block at the *current*
`(x, y)`; any other category raises `KeyError` (line 1036), which aborts
the loop but keeps the world mutations already made.  Returns the ordered
list of world mutations and the error, if one was raised. -/
def drop_loop {α : Type} (x0 y0 : ℚ) (jx jy : ℕ → ℤ) :
    List (String × α) → ℕ → ℚ × ℚ → List (WorldEvent α) × Option String
  | [], _, _ => ([], none)
  | (cat, payload) :: rest, i, xy =>
    if cat = "item" then
      let nxy := (item_drop_x x0 jx i, item_drop_y y0 jy i)
      let r := drop_loop x0 y0 jx jy rest (i + 1) nxy
      (WorldEvent.addItem payload nxy.1 nxy.2 :: r.1, r.2)
    else if cat = "block" then
      let r := drop_loop x0 y0 jx jy rest (i + 1) xy
      (WorldEvent.addBlock payload xy.1 xy.2 :: r.1, r.2)
    else
      ([], some ("Unknown drop category " ++ cat))

/-- The value of the local variables `(x, y)` of `Ninedraft.mine_block`
after the loop has processed a prefix of the drop list: each `"item"`
iteration overwrites them with its jittered coordinates (app.py lines
1029–1030); every other iteration leaves them alone. -/
def running_xy (x0 y0 : ℚ) (jx jy : ℕ → ℤ) :
    List String → ℕ → ℚ × ℚ → ℚ × ℚ
  | [], _, xy => xy
  | cat :: rest, i, xy =>
    running_xy x0 y0 jx jy rest (i + 1)
      (if cat = "item" then (item_drop_x x0 jx i, item_drop_y y0 jy i) else xy)

/-- Where `Ninedraft._handle_player_collide_item` put the colliding item. -/
inductive PickupOutcome where
  | toHotbar
  | toInventory
  | rejected
deriving DecidableEq, Repr

/-- Result of `Ninedraft._handle_player_collide_item`: where the item went,
whether `self._world.remove_item(dropped_item)` was called, and the boolean
the callback returned to the physics engine (`True` = the collision is
physically valid). -/
structure CollisionResult where
  outcome : PickupOutcome
  item_removed : Bool
  return_value : Bool
deriving DecidableEq, Repr

/-- `Ninedraft._handle_player_collide_item` (app.py lines 1316–1346).
`hotbar_accepts` / `inventory_accepts` are the booleans returned by
`self._hot_bar.add_item(item)` and `self._inventory.add_item(item)`
(grid.py is not in the snapshot; modelled from the spec, a container's
`add_item` succeeds iff it is not full).  The code tries the hotbar, falls
back to the inventory, returns `True` without removing the item when both
fail, and otherwise removes the dropped item from the world and returns
`False`. -/
def handle_player_collide_item (hotbar_accepts inventory_accepts : Bool) :
    CollisionResult :=
  if hotbar_accepts then
    ⟨PickupOutcome.toHotbar, true, false⟩
  else if inventory_accepts then
    ⟨PickupOutcome.toInventory, true, false⟩
  else
    ⟨PickupOutcome.rejected, false, true⟩

/-- `Sheep.step` velocity update (app.py lines 50–66).  Every 100th step the
sheep draws `z = cmath.rect(self._tempo * health_percentage,
random.uniform(0, 2 * pi))` and sets `velocity = (x + z.real * 2,
y + z.imag - SHEEP_GRAVITY_FACTOR)`.  The random polar-to-rectangular
sample `z` is the explicit input `z = (z.real, z.imag)`, scaled so that
`z = (m * cos θ, m * sin θ)` with `m = tempo * (health / max_health)`. -/
def sheep_step_velocity (steps : ℕ) (v : ℚ × ℚ) (z : ℚ × ℚ) : ℚ × ℚ :=
  if steps % 100 = 0 then (v.1 + z.1 * 2, v.2 + z.2 - SHEEP_GRAVITY_FACTOR)
  else v

/-- `Bee.step` velocity update (app.py lines 87–103).  Every 20th step the
bee draws the same kind of polar sample `z` and sets `velocity =
(x + z.real * 1.5, y + z.imag - BEE_GRAVITY_FACTOR)`. -/
def bee_step_velocity (steps : ℕ) (v : ℚ × ℚ) (z : ℚ × ℚ) : ℚ × ℚ :=
  if steps % 20 = 0 then (v.1 + z.1 * (3 / 2), v.2 + z.2 - BEE_GRAVITY_FACTOR)
  else v

/-- The velocity delta the spec's words prescribe for a mob impulse: the
polar-to-rectangular conversion of the magnitude at the random angle, minus
the species bias on the y axis, "with no additional per-axis scaling" —
i.e. `(m·cos θ, m·sin θ − bias)`, which in terms of the rect sample
`z = (m·cos θ, m·sin θ)` is `(z.1, z.2 − bias)`. -/
def spec_mob_impulse (bias : ℚ) (z : ℚ × ℚ) : ℚ × ℚ :=
  (z.1, z.2 - bias)

/-- `Stack` as used by `Ninedraft._right_click` (grid.py is not in the
snapshot).  Modelled from the spec: §3 "Stack: (item, quantity) pair".
`item` is the stacked item's id. -/
structure Stack where
  item : String
  quantity : ℤ
deriving DecidableEq, Repr

/-- Modelled from the spec: `Stack.subtract` lives in the missing grid.py;
it removes `n` units from the stack's quantity (app.py line 1280 calls
`stack.subtract(1)`). -/
def Stack.subtract (s : Stack) (n : ℤ) : Stack :=
  { s with quantity := s.quantity - n }

/-- Modelled from the spec: `Stack.get_quantity` lives in the missing
grid.py; it reports the stack's quantity. -/
def Stack.get_quantity (s : Stack) : ℤ :=
  s.quantity

/-- The place branch of `Ninedraft._right_click` restricted to the hotbar
slot (app.py lines 1268–1290): with no thing at the target, the selected
stack's item's `place()` result is computed (line 1278, the input `drops`;
`none` models a `place()` that returns `None`, e.g. `ToolItem.place`), then
`stack.subtract(1)` runs and the slot is emptied when the quantity hits 0
(lines 1280–1283) — only *after* that is `drops` examined (line 1285).
Returns the new slot contents.  `slot = none` models the early return when
the selected cell holds no stack (lines 1276–1277). -/
def right_click_slot_update {α : Type} (slot : Option Stack)
    (drops : Option α) : Option Stack :=
  match slot with
  | none => none
  | some stack =>
    let stack := stack.subtract 1
    if stack.get_quantity = 0 then none else some stack

/-- C1: for an effect tuple whose kind is `"food"` or `"health"`,
`run_effect` picks the stat to change from the player's state, not from the
tag: when the player's food is strictly below max food it calls
`change_food strength` (health untouched, food raised by `strength` when no
clamp interferes); otherwise it calls `change_health strength` (food
untouched).  In particular a `"health"` effect is applied to food whenever
food is below max. -/
theorem run_effect_routes_stat_by_food_level (p : Player) (kind : String)
    (s : ℚ) (hk : kind = "food" ∨ kind = "health") :
    (p.food < p.max_food →
      run_effect_stat p kind s = Except.ok (p.change_food s) ∧
      (p.change_food s).health = p.health ∧
      (0 ≤ p.food + s → p.food + s ≤ p.max_food →
        (p.change_food s).food = p.food + s)) ∧
    (p.max_food ≤ p.food →
      run_effect_stat p kind s = Except.ok (p.change_health s) ∧
      (p.change_health s).food = p.food) := by
  constructor
  · intro hf
    refine ⟨?_, rfl, ?_⟩
    · simp only [run_effect_stat, if_pos hk, if_pos hf]
    · intro h0 h1
      show min p.max_food (max 0 (p.food + s)) = p.food + s
      rw [max_eq_right h0, min_eq_right h1]
  · intro hf
    refine ⟨?_, rfl⟩
    simp only [run_effect_stat, if_pos hk, if_neg (not_lt.mpr hf)]

/-- Witness for C1: a player with food 3 of max 20 who receives a
`("health", 2)` effect has the effect routed to food. -/
theorem run_effect_routes_stat_by_food_level_witness :
    (⟨20, 3, 20, 20⟩ : Player).food < (⟨20, 3, 20, 20⟩ : Player).max_food ∧
    run_effect_stat ⟨20, 3, 20, 20⟩ "health" 2 =
      Except.ok (Player.change_food ⟨20, 3, 20, 20⟩ 2) :=
  ⟨by decide,
   ((run_effect_routes_stat_by_food_level ⟨20, 3, 20, 20⟩ "health" 2
      (Or.inr rfl)).1 (by decide)).1⟩

/-- C2 counterexample: `ToolItem.attack` does not clamp — an unsuccessful
attack on a tool whose durability is already 0 drives the durability to
-1, so durability is not "never negative". -/
theorem tool_attack_unclamped_counterexample :
    ((ToolItem.mk "stone_pickaxe" "pickaxe" 0 132).attack false).durability
      = -1 ∧
    ¬ (0 : ℤ) ≤
      ((ToolItem.mk "stone_pickaxe" "pickaxe" 0 132).attack false).durability := by
  decide

/-- C2 (amended): over any sequence of `attack` calls durability is
monotonically non-increasing; a successful attack leaves the tool (and its
durability) unchanged and an unsuccessful one decrements durability by
exactly 1 — unconditionally, with no clamp at 0, so from 0 it goes
negative. -/
theorem tool_attack_durability_decrement (t : ToolItem) (bs : List Bool) :
    (t.attack true).durability = t.durability ∧
    t.attack true = t ∧
    (t.attack false).durability = t.durability - 1 ∧
    (bs.foldl ToolItem.attack t).durability
      = t.durability - (bs.count false : ℤ) ∧
    (bs.foldl ToolItem.attack t).durability ≤ t.durability := by
  refine ⟨rfl, rfl, rfl, attack_durability_foldl t bs, ?_⟩
  rw [attack_durability_foldl]
  omega

/-- C3: when `mine_block` registers the block as mined, exactly one stat
falls, with the crossover exactly at `food == 0`: with food strictly
positive the player's food drops by the fixed step 0.5 (clamped at 0, and
by exactly 0.5 whenever at least 0.5 food remains) and health is untouched;
with food at (or below) 0 the player's health drops by 2.5 instead (clamped
at 0, and by exactly 2.5 whenever at least 2.5 health remains) and food is
untouched. -/
theorem mine_block_stat_crossover (p : Player)
    (hfb : p.food ≤ p.max_food) (hhb : p.health ≤ p.max_health)
    (hmh : 0 ≤ p.max_health) :
    (0 < p.food →
      (mine_stat_update p).health = p.health ∧
      (mine_stat_update p).food = max 0 (p.food - 1 / 2) ∧
      (1 / 2 ≤ p.food → (mine_stat_update p).food = p.food - 1 / 2)) ∧
    (p.food ≤ 0 →
      (mine_stat_update p).food = p.food ∧
      (mine_stat_update p).health = max 0 (p.health - 5 / 2) ∧
      (5 / 2 ≤ p.health →
        (mine_stat_update p).health = p.health - 5 / 2)) := by
  constructor
  · intro h0
    have hmf : 0 ≤ p.max_food := le_trans h0.le hfb
    simp only [mine_stat_update, if_pos h0]
    refine ⟨rfl, ?_, ?_⟩
    · show min p.max_food (max 0 (p.food + -(1 / 2))) = max 0 (p.food - 1 / 2)
      rw [← sub_eq_add_neg]
      exact min_eq_right (max_le hmf (by linarith))
    · intro hhalf
      show min p.max_food (max 0 (p.food + -(1 / 2))) = p.food - 1 / 2
      rw [← sub_eq_add_neg, max_eq_right (by linarith),
        min_eq_right (by linarith)]
  · intro h0
    have hnot : ¬ 0 < p.food := not_lt.mpr h0
    simp only [mine_stat_update, if_neg hnot]
    refine ⟨rfl, ?_, ?_⟩
    · show min p.max_health (max 0 (p.health + -(5 / 2)))
        = max 0 (p.health - 5 / 2)
      rw [← sub_eq_add_neg]
      exact min_eq_right (max_le hmh (by linarith))
    · intro hhealth
      show min p.max_health (max 0 (p.health + -(5 / 2))) = p.health - 5 / 2
      rw [← sub_eq_add_neg, max_eq_right (by linarith),
        min_eq_right (by linarith)]

/-- Witness for C3: a player with food 3 of max 20 loses exactly 0.5 food
and no health on a successful mine. -/
theorem mine_block_stat_crossover_witness :
    (0 : ℚ) < 3 ∧
    (mine_stat_update ⟨20, 3, 20, 20⟩).health = 20 ∧
    (mine_stat_update ⟨20, 3, 20, 20⟩).food = 3 - 1 / 2 :=
  ⟨by decide,
   ((mine_block_stat_crossover ⟨20, 3, 20, 20⟩ (by decide) (by decide)
      (by decide)).1 (by decide)).1,
   ((mine_block_stat_crossover ⟨20, 3, 20, 20⟩ (by decide) (by decide)
      (by decide)).1 (by decide)).2.2 (by norm_num)⟩

/-- C10: because `luck = random.random()` lies in `[0, 1)`, the guard
`luck < 1` in `mine_block` always holds, so the local `drops` is always
assigned by `block.get_drops` before it is read — the read can never hit an
unassigned variable (the `none` branch of the embedding is unreachable). -/
theorem mine_drops_guard_always_assigns {α : Type} (luck : ℚ)
    (get_drops : ℚ → Bool → α) (was_item_suitable : Bool)
    (h0 : 0 ≤ luck) (h1 : luck < 1) :
    mine_drops luck get_drops was_item_suitable
      = some (get_drops luck was_item_suitable) ∧
    mine_drops luck get_drops was_item_suitable ≠ none := by
  have h : mine_drops luck get_drops was_item_suitable
      = some (get_drops luck was_item_suitable) := by
    simp only [mine_drops, if_pos h1]
  exact ⟨h, by simp [h]⟩

/-- Witness for C10: at the in-range sample `luck = 0` the drops are
assigned. -/
theorem mine_drops_guard_always_assigns_witness :
    (0 : ℚ) ≤ 0 ∧ (0 : ℚ) < 1 ∧
    mine_drops (0 : ℚ) (fun _ _ => (7 : ℕ)) true = some 7 :=
  ⟨le_refl 0, by decide,
   (mine_drops_guard_always_assigns 0 (fun _ _ => 7) true (le_refl 0)
      (by decide)).1⟩

/-- C5: the installed player/dropped-item handler tries the hotbar first
and falls back to the inventory; if either container accepts, the dropped
item is removed from the world and the handler returns the
invalid-collision value `False`; it returns the valid-collision value
`True` only when both containers are full, and then the item is not
removed. -/
theorem collide_item_pickup (hotbar_accepts inventory_accepts : Bool) :
    ((hotbar_accepts = true ∨ inventory_accepts = true) →
      (handle_player_collide_item hotbar_accepts inventory_accepts).item_removed
          = true ∧
      (handle_player_collide_item hotbar_accepts inventory_accepts).return_value
          = false) ∧
    (hotbar_accepts = true →
      (handle_player_collide_item hotbar_accepts inventory_accepts).outcome
        = PickupOutcome.toHotbar) ∧
    (hotbar_accepts = false → inventory_accepts = true →
      (handle_player_collide_item hotbar_accepts inventory_accepts).outcome
        = PickupOutcome.toInventory) ∧
    ((handle_player_collide_item hotbar_accepts inventory_accepts).return_value
        = true ↔ hotbar_accepts = false ∧ inventory_accepts = false) ∧
    (hotbar_accepts = false → inventory_accepts = false →
      (handle_player_collide_item hotbar_accepts inventory_accepts).item_removed
        = false) := by
  cases hotbar_accepts <;> cases inventory_accepts <;> decide

/-- Witness for C5: with a hotbar that accepts, the item is removed from
the world and the collision is reported invalid. -/
theorem collide_item_pickup_witness :
    (handle_player_collide_item true false).item_removed = true ∧
    (handle_player_collide_item true false).return_value = false :=
  (collide_item_pickup true false).1 (Or.inl rfl)

/-- C6 counterexample: with both the hotbar and the inventory full, the
handler does leave the item in the world, but it returns `True` — the
valid-collision value, a physically blocking collision — not the
invalid-collision value `False` the claim asserts. -/
theorem collide_item_both_full_counterexample :
    (handle_player_collide_item false false).return_value = true ∧
    ¬ (handle_player_collide_item false false).return_value = false := by
  decide

/-- C6 (amended): whenever both the hotbar and the inventory are full, a
player/dropped-item collision leaves the dropped item in the world (it is
not removed) and the collision handler reports the collision as physically
valid (returns `True`), so the item visibly rests against the player. -/
theorem collide_item_both_full :
    (handle_player_collide_item false false).item_removed = false ∧
    (handle_player_collide_item false false).return_value = true := by
  decide

/-- C7 counterexample: with the rect sample `z = (1, 0)` (magnitude 1,
angle 0) on an impulse step, the sheep's velocity delta is `(2, -100)` and
the bee's is `(1.5, -200)` — the x component carries an extra per-axis
factor (2 for the sheep, 1.5 for the bee) over the plain
polar-to-rectangular conversion `(1, -bias)` the claim asserts. -/
theorem mob_impulse_scaling_counterexample :
    sheep_step_velocity 0 (0, 0) (1, 0) = (2, -100) ∧
    bee_step_velocity 0 (0, 0) (1, 0) = (3 / 2, -200) ∧
    sheep_step_velocity 0 (0, 0) (1, 0)
      ≠ (0 + (spec_mob_impulse SHEEP_GRAVITY_FACTOR (1, 0)).1,
         0 + (spec_mob_impulse SHEEP_GRAVITY_FACTOR (1, 0)).2) ∧
    bee_step_velocity 0 (0, 0) (1, 0)
      ≠ (0 + (spec_mob_impulse BEE_GRAVITY_FACTOR (1, 0)).1,
         0 + (spec_mob_impulse BEE_GRAVITY_FACTOR (1, 0)).2) := by
  refine ⟨?_, ?_, ?_, ?_⟩ <;>
    simp [sheep_step_velocity, bee_step_velocity, spec_mob_impulse,
      SHEEP_GRAVITY_FACTOR, BEE_GRAVITY_FACTOR, Prod.ext_iff] <;>
    norm_num

/-- C7 (amended): on every impulse step (every 100th for the sheep, every
20th for the bee) the velocity delta is the spec's polar-to-rectangular
impulse with the x component additionally scaled — by 2 for the sheep and
by 1.5 for the bee; the y component is exactly the spec impulse
(`m sin θ − species bias`).  Off the impulse step the velocity is
unchanged. -/
theorem mob_impulse_axis_scaling (steps : ℕ) (v z : ℚ × ℚ) :
    (steps % 100 = 0 →
      sheep_step_velocity steps v z
        = (v.1 + 2 * (spec_mob_impulse SHEEP_GRAVITY_FACTOR z).1,
           v.2 + (spec_mob_impulse SHEEP_GRAVITY_FACTOR z).2)) ∧
    (steps % 100 ≠ 0 → sheep_step_velocity steps v z = v) ∧
    (steps % 20 = 0 →
      bee_step_velocity steps v z
        = (v.1 + 3 / 2 * (spec_mob_impulse BEE_GRAVITY_FACTOR z).1,
           v.2 + (spec_mob_impulse BEE_GRAVITY_FACTOR z).2)) ∧
    (steps % 20 ≠ 0 → bee_step_velocity steps v z = v) := by
  refine ⟨fun h => ?_, fun h => ?_, fun h => ?_, fun h => ?_⟩
  · simp only [sheep_step_velocity, spec_mob_impulse, if_pos h,
      Prod.mk.injEq]
    constructor <;> ring
  · simp only [sheep_step_velocity, if_neg h]
  · simp only [bee_step_velocity, spec_mob_impulse, if_pos h, Prod.mk.injEq]
    constructor <;> ring
  · simp only [bee_step_velocity, if_neg h]

/-- Witness for C7 (amended): at step 100 with `z = (1, 1)` both mobs
receive their scaled impulses. -/
theorem mob_impulse_axis_scaling_witness :
    100 % 100 = 0 ∧ 100 % 20 = 0 ∧
    sheep_step_velocity 100 (0, 0) (1, 1)
      = (0 + 2 * (spec_mob_impulse SHEEP_GRAVITY_FACTOR (1, 1)).1,
         0 + (spec_mob_impulse SHEEP_GRAVITY_FACTOR (1, 1)).2) ∧
    bee_step_velocity 100 (0, 0) (1, 1)
      = (0 + 3 / 2 * (spec_mob_impulse BEE_GRAVITY_FACTOR (1, 1)).1,
         0 + (spec_mob_impulse BEE_GRAVITY_FACTOR (1, 1)).2) :=
  ⟨rfl, rfl,
   (mob_impulse_axis_scaling 100 (0, 0) (1, 1)).1 rfl,
   (mob_impulse_axis_scaling 100 (0, 0) (1, 1)).2.2.1 rfl⟩

/-- C9: on a right-click with no thing at the target and a non-empty
selected hotbar stack, the stack's quantity falls by exactly 1 (the item id
unchanged), the slot is emptied exactly when the quantity reaches 0, and
the new slot contents do not depend on the item's `place()` result at all —
so one unit is consumed even when `place()` returns `None` and nothing is
added to the world. -/
theorem right_click_consumes_before_drops {α : Type} (stack : Stack)
    (drops : Option α) :
    (∀ s, right_click_slot_update (some stack) drops = some s →
      s.quantity = stack.quantity - 1 ∧ s.item = stack.item) ∧
    (right_click_slot_update (some stack) drops = none ↔
      stack.quantity - 1 = 0) ∧
    right_click_slot_update (some stack) drops
      = right_click_slot_update (some stack) (none : Option α) := by
  refine ⟨?_, ?_, rfl⟩
  · intro s hs
    simp only [right_click_slot_update, Stack.subtract, Stack.get_quantity]
      at hs
    by_cases h : stack.quantity - 1 = 0
    · rw [if_pos h] at hs
      exact absurd hs (by simp)
    · rw [if_neg h] at hs
      cases hs
      exact ⟨rfl, rfl⟩
  · simp only [right_click_slot_update, Stack.subtract, Stack.get_quantity]
    constructor
    · intro he
      by_contra h
      rw [if_neg h] at he
      exact Option.some_ne_none _ he
    · intro h
      rw [if_pos h]

/-- Witness for C9: a stack of 20 dirt right-clicked with a `place()` that
returned `None` still drops to 19. -/
theorem right_click_consumes_before_drops_witness :
    right_click_slot_update (some ⟨"dirt", 20⟩) (none : Option Unit)
      = some ⟨"dirt", 19⟩ ∧
    (19 : ℤ) = 20 - 1 :=
  ⟨by decide,
   ((right_click_consumes_before_drops (⟨"dirt", 20⟩ : Stack)
      (none : Option Unit)).1 ⟨"dirt", 19⟩ (by decide)).1⟩

theorem drop_loop_nil {α : Type} (x0 y0 : ℚ) (jx jy : ℕ → ℤ) (i : ℕ)
    (xy : ℚ × ℚ) :
    drop_loop x0 y0 jx jy ([] : List (String × α)) i xy = ([], none) := rfl

theorem drop_loop_cons_item {α : Type} (x0 y0 : ℚ) (jx jy : ℕ → ℤ) (q : α)
    (rest : List (String × α)) (i : ℕ) (xy : ℚ × ℚ) :
    drop_loop x0 y0 jx jy (("item", q) :: rest) i xy
      = (WorldEvent.addItem q (item_drop_x x0 jx i) (item_drop_y y0 jy i) ::
           (drop_loop x0 y0 jx jy rest (i + 1)
             (item_drop_x x0 jx i, item_drop_y y0 jy i)).1,
         (drop_loop x0 y0 jx jy rest (i + 1)
           (item_drop_x x0 jx i, item_drop_y y0 jy i)).2) := rfl

theorem drop_loop_cons_block {α : Type} (x0 y0 : ℚ) (jx jy : ℕ → ℤ) (q : α)
    (rest : List (String × α)) (i : ℕ) (xy : ℚ × ℚ) :
    drop_loop x0 y0 jx jy (("block", q) :: rest) i xy
      = (WorldEvent.addBlock q xy.1 xy.2 ::
           (drop_loop x0 y0 jx jy rest (i + 1) xy).1,
         (drop_loop x0 y0 jx jy rest (i + 1) xy).2) := rfl

theorem drop_loop_cons_bad {α : Type} (x0 y0 : ℚ) (jx jy : ℕ → ℤ)
    (cat : String) (q : α) (rest : List (String × α)) (i : ℕ) (xy : ℚ × ℚ)
    (hc1 : cat ≠ "item") (hc2 : cat ≠ "block") :
    drop_loop x0 y0 jx jy ((cat, q) :: rest) i xy
      = ([], some ("Unknown drop category " ++ cat)) := by
  simp only [drop_loop, if_neg hc1, if_neg hc2]

theorem running_xy_cons_item (x0 y0 : ℚ) (jx jy : ℕ → ℤ)
    (cs : List String) (i : ℕ) (xy : ℚ × ℚ) :
    running_xy x0 y0 jx jy ("item" :: cs) i xy
      = running_xy x0 y0 jx jy cs (i + 1)
          (item_drop_x x0 jx i, item_drop_y y0 jy i) := rfl

theorem running_xy_cons_not_item (x0 y0 : ℚ) (jx jy : ℕ → ℤ) (c : String)
    (cs : List String) (i : ℕ) (xy : ℚ × ℚ) (hc : c ≠ "item") :
    running_xy x0 y0 jx jy (c :: cs) i xy
      = running_xy x0 y0 jx jy cs (i + 1) xy := by
  simp only [running_xy, if_neg hc]

theorem drop_loop_error_component {α : Type} (x0 y0 : ℚ) (jx jy : ℕ → ℤ)
    (cat : String) (payload : α) (hc1 : cat ≠ "item") (hc2 : cat ≠ "block") :
    ∀ (pre : List (String × α)), (∀ e ∈ pre, e.1 = "item" ∨ e.1 = "block") →
      ∀ (post : List (String × α)) (i : ℕ) (xy : ℚ × ℚ),
        (drop_loop x0 y0 jx jy (pre ++ (cat, payload) :: post) i xy).2
          = some ("Unknown drop category " ++ cat) := by
  intro pre
  induction pre with
  | nil =>
    intro _ post i xy
    rw [List.nil_append, drop_loop_cons_bad x0 y0 jx jy cat payload post i xy
      hc1 hc2]
  | cons e pre ih =>
    intro h post i xy
    obtain ⟨c, q⟩ := e
    have htail : ∀ e ∈ pre, e.1 = "item" ∨ e.1 = "block" :=
      fun d hd => h d (List.mem_cons_of_mem _ hd)
    rcases h (c, q) (List.mem_cons_self _ _) with hcase | hcase <;>
      simp only at hcase <;> subst hcase
    · rw [List.cons_append, drop_loop_cons_item]
      exact ih htail post (i + 1) _
    · rw [List.cons_append, drop_loop_cons_block]
      exact ih htail post (i + 1) xy

/-- C4 counterexample: mining a block centred at `(160, 160)` (clicked at
`(170, 170)`) whose drop list is an `"item"` drop followed by a `"block"`
drop, with both randint jitters 0, adds the new block at `(149, 149)` —
exactly the jittered coordinates just computed for the item drop, not the
mined block's coordinates `(160, 160)`. -/
theorem block_drop_clobbered_coords_counterexample :
    drop_loop (160 : ℚ) 160 (fun _ => 0) (fun _ => 0)
      [("item", (0 : ℕ)), ("block", 0)] 0 (170, 170)
      = ([WorldEvent.addItem 0 149 149, WorldEvent.addBlock 0 149 149],
         none) ∧
    ((149 : ℚ), (149 : ℚ)) ≠ ((160 : ℚ), (160 : ℚ)) := by
  constructor
  · rw [drop_loop_cons_item, drop_loop_cons_block, drop_loop_nil]
    norm_num [item_drop_x, item_drop_y, BLOCK_SIZE]
  · norm_num [Prod.ext_iff]

/-- C4 (amended): for every drop list, a `"block"` entry is placed at the
loop's *current* working coordinates `(x, y)`: the cursor coordinates
passed to `mine_block` when no `"item"` entry precedes it, and otherwise
the jittered coordinates computed for the most recent preceding `"item"`
entry (`running_xy` folds exactly that reassignment); the position of the
mined block itself (`x0`, `y0`) enters only through the item-jitter
formula, never directly. -/
theorem block_drop_uses_running_coords {α : Type} (x0 y0 : ℚ)
    (jx jy : ℕ → ℤ) (p : α) :
    ∀ (pre : List (String × α)), (∀ e ∈ pre, e.1 = "item" ∨ e.1 = "block") →
      ∀ (post : List (String × α)) (i : ℕ) (xy : ℚ × ℚ),
        (drop_loop x0 y0 jx jy (pre ++ ("block", p) :: post) i xy).1[pre.length]?
          = some (WorldEvent.addBlock p
              (running_xy x0 y0 jx jy (pre.map Prod.fst) i xy).1
              (running_xy x0 y0 jx jy (pre.map Prod.fst) i xy).2) ∧
        ((∀ e ∈ pre, e.1 ≠ "item") →
          running_xy x0 y0 jx jy (pre.map Prod.fst) i xy = xy) := by
  intro pre
  induction pre with
  | nil =>
    intro _ post i xy
    constructor
    · rw [List.nil_append, drop_loop_cons_block, List.map_nil,
        List.length_nil]
      simp [running_xy]
    · intro _
      rfl
  | cons e pre ih =>
    intro h post i xy
    obtain ⟨c, q⟩ := e
    have htail : ∀ e ∈ pre, e.1 = "item" ∨ e.1 = "block" :=
      fun d hd => h d (List.mem_cons_of_mem _ hd)
    rcases h (c, q) (List.mem_cons_self _ _) with hcase | hcase <;>
      simp only at hcase <;> subst hcase
    · constructor
      · rw [List.cons_append, drop_loop_cons_item, List.map_cons,
          running_xy_cons_item, List.length_cons,
          List.getElem?_cons_succ]
        exact (ih htail post (i + 1) _).1
      · intro hni
        exact absurd rfl (hni ("item", q) (List.mem_cons_self _ _))
    · constructor
      · rw [List.cons_append, drop_loop_cons_block, List.map_cons,
          running_xy_cons_not_item x0 y0 jx jy "block" _ i xy (by decide),
          List.length_cons, List.getElem?_cons_succ]
        exact (ih htail post (i + 1) xy).1
      · intro hni
        rw [List.map_cons,
          running_xy_cons_not_item x0 y0 jx jy "block" _ i xy (by decide)]
        exact (ih htail post (i + 1) xy).2
          (fun d hd => hni d (List.mem_cons_of_mem _ hd))

/-- Witness for C4 (amended): with an `"item"` drop at index 0, the
`"block"` drop at index 1 lands at the item's jittered coordinates, which
`running_xy` reports. -/
theorem block_drop_uses_running_coords_witness :
    (drop_loop (160 : ℚ) 160 (fun _ => 0) (fun _ => 0)
        ([("item", (0 : ℕ))] ++ ("block", 0) :: []) 0 (170, 170)).1[1]?
      = some (WorldEvent.addBlock 0
          (running_xy 160 160 (fun _ => 0) (fun _ => 0) ["item"] 0
            (170, 170)).1
          (running_xy 160 160 (fun _ => 0) (fun _ => 0) ["item"] 0
            (170, 170)).2) :=
  (block_drop_uses_running_coords 160 160 (fun _ => 0) (fun _ => 0) 0
    [("item", 0)] (by simp) [] 0 (170, 170)).1

/-- C8: drop dispatch is deterministic in category handling, over all
possible category strings: an `"item"` entry adds exactly one dropped-item
body (at the jittered coordinates), a `"block"` entry adds exactly one
block (at the current coordinates), and any other category raises the
"Unknown drop category" error, which also propagates out of a longer drop
list whose earlier entries are all well-categorised. -/
theorem drop_category_dispatch {α : Type} (x0 y0 : ℚ) (jx jy : ℕ → ℤ)
    (cat : String) (payload : α) (i : ℕ) (xy : ℚ × ℚ)
    (pre post : List (String × α)) :
    (cat = "item" →
      drop_loop x0 y0 jx jy [(cat, payload)] i xy
        = ([WorldEvent.addItem payload (item_drop_x x0 jx i)
              (item_drop_y y0 jy i)], none)) ∧
    (cat = "block" →
      drop_loop x0 y0 jx jy [(cat, payload)] i xy
        = ([WorldEvent.addBlock payload xy.1 xy.2], none)) ∧
    (cat ≠ "item" → cat ≠ "block" →
      drop_loop x0 y0 jx jy [(cat, payload)] i xy
        = ([], some ("Unknown drop category " ++ cat)) ∧
      ((∀ e ∈ pre, e.1 = "item" ∨ e.1 = "block") →
        (drop_loop x0 y0 jx jy (pre ++ (cat, payload) :: post) i xy).2
          = some ("Unknown drop category " ++ cat))) := by
  refine ⟨fun hc => ?_, fun hc => ?_, fun hc1 hc2 => ⟨?_, fun hpre => ?_⟩⟩
  · subst hc
    rw [drop_loop_cons_item]
    rfl
  · subst hc
    rw [drop_loop_cons_block]
    rfl
  · exact drop_loop_cons_bad x0 y0 jx jy cat payload [] i xy hc1 hc2
  · exact drop_loop_error_component x0 y0 jx jy cat payload hc1 hc2 pre
      hpre post i xy

/-- Witness for C8: the category `"gold"` is neither `"item"` nor
`"block"`, and a drop list starting with a well-formed `"item"` entry
followed by a `"gold"` entry errors out with the unknown-category
message. -/
theorem drop_category_dispatch_witness :
    drop_loop (160 : ℚ) 160 (fun _ => 0) (fun _ => 0)
      [(("gold" : String), (0 : ℕ))] 0 (170, 170)
      = ([], some ("Unknown drop category " ++ "gold")) ∧
    (drop_loop (160 : ℚ) 160 (fun _ => 0) (fun _ => 0)
        ([("item", (0 : ℕ))] ++ ("gold", 0) :: []) 0 (170, 170)).2
      = some ("Unknown drop category " ++ "gold") :=
  ⟨((drop_category_dispatch 160 160 (fun _ => 0) (fun _ => 0) "gold" 0 0
      (170, 170) [("item", 0)] []).2.2 (by decide) (by decide)).1,
   ((drop_category_dispatch 160 160 (fun _ => 0) (fun _ => 0) "gold" 0 0
      (170, 170) [("item", 0)] []).2.2 (by decide) (by decide)).2 (by simp)⟩

end Ninedraft
